import Mathlib

/-!
Verification development for the threshold alert service.

The Python sources are shallowly embedded as pure Lean functions:
mutable dictionaries become association lists that are threaded through
the operations, `time.time()` becomes an explicit `now : Int` argument,
and raised exceptions become `Except` / `Option` results.  Sensor values
and thresholds (Python floats) are embedded as rationals.
-/

namespace ThresholdAlert

/-- model of Python `str.lower()` (ASCII case folding, which is all the
repository's threshold-type strings use).  `String.toLower` itself is not
kernel-reducible, so the character-list form is used. -/
def pyLower (s : String) : String := ⟨s.data.map Char.toLower⟩

/-- model of Python `str.strip()`: drop whitespace from both ends. -/
def pyStrip (s : String) : String :=
  ⟨((s.data.dropWhile Char.isWhitespace).reverse.dropWhile Char.isWhitespace).reverse⟩

/-- raw value carried by a sensor reading; Python `float(value)` succeeds on
numeric payloads and raises `ValueError` on non-numeric ones. -/
inductive RawValue where
  | num (q : ℚ)
  | junk (s : String)
deriving DecidableEq

/-- embedding of Python `float(...)` applied to a reading's value:
`some` on success, `none` when the conversion raises. -/
def toFloat : RawValue → Option ℚ
  | .num q => some q
  | .junk _ => none

/-- one sensor reading inside a `NewReadingsEvent` payload. -/
structure Reading where
  sensor_id : String
  sensor_type : String
  value : RawValue
deriving DecidableEq

/-- breach object built by `make_breach_object` in
`monitoring/threshold_checker.py`. -/
structure Breach where
  device_id : String
  sensor_id : String
  factory_name : String
  zone_name : String
  machine_name : String
  sensor_name : String
  sensor_value : RawValue
  timestamp : String
  threshold_type : String
  threshold_value : ℚ
deriving DecidableEq

/-! Association lists model Python dictionaries: `insertA` overwrites the
value in place when the key is present (preserving insertion order, as
CPython dicts do) and appends otherwise. -/

/-- dictionary lookup. -/
def lookupA {α β : Type} [DecidableEq α] : List (α × β) → α → Option β
  | [], _ => none
  | (k, v) :: rest, k' => if k' = k then some v else lookupA rest k'

/-- dictionary store `d[k] = v`. -/
def insertA {α β : Type} [DecidableEq α] : List (α × β) → α → β → List (α × β)
  | [], k, v => [(k, v)]
  | (k0, v0) :: rest, k, v =>
    if k = k0 then (k0, v) :: rest else (k0, v0) :: insertA rest k v

/-! ### Device-State Manager (`monitoring/device_state.py`) -/

/-- per-level sub-state held in `DeviceStateManager.states`. -/
structure SubState where
  above_threshold : Bool
  since_timestamp : Option Int
  breach : Option Breach
deriving DecidableEq

/-- freshly initialised (all-null) sub-state. -/
def SubState.init : SubState :=
  { above_threshold := false, since_timestamp := none, breach := none }

/-- the two warning-tier sub-states kept for each (device, sensor). -/
structure SensorState where
  yellow : SubState
  orange : SubState
deriving DecidableEq

def SensorState.init : SensorState := ⟨SubState.init, SubState.init⟩

/-- the two severity levels that are stored in sensor state
("red" is stateless and never stored). -/
inductive Level where
  | yellow
  | orange
deriving DecidableEq

def SensorState.get : SensorState → Level → SubState
  | ss, .yellow => ss.yellow
  | ss, .orange => ss.orange

def SensorState.set : SensorState → Level → SubState → SensorState
  | ss, .yellow, sub => { ss with yellow := sub }
  | ss, .orange, sub => { ss with orange := sub }

/-- the mutable fields of `DeviceStateManager`: the per-(device, sensor)
state dictionary (the Python version nests device → sensor; reachable
states always create both layers together, so the flattened key is
equivalent) and the per-device last-access map. -/
structure MgrState where
  states : List ((String × String) × SensorState)
  last_access : List (String × Int)
deriving DecidableEq

def MgrState.init : MgrState := ⟨[], []⟩

/-- `DeviceStateManager.get_sensor_state`: initialises missing entries,
refreshes `last_access[device_id]`, and returns the sensor's state. -/
def get_sensor_state (m : MgrState) (now : Int) (device_id sensor_id : String) :
    MgrState × SensorState :=
  let key := (device_id, sensor_id)
  let ss := (lookupA m.states key).getD SensorState.init
  let states' :=
    match lookupA m.states key with
    | some _ => m.states
    | none => insertA m.states key SensorState.init
  ({ states := states', last_access := insertA m.last_access device_id now }, ss)

/-- body of `DeviceStateManager.update_sensor_state` once the threshold
type string has been validated and mapped to a level. -/
def update_level (m : MgrState) (now : Int) (device_id sensor_id : String) (lvl : Level)
    (is_above : Bool) (breach : Option Breach) : MgrState :=
  let res := get_sensor_state m now device_id sensor_id
  let sub := res.2.get lvl
  let sub' :=
    if is_above then
      if sub.above_threshold then sub
      else { above_threshold := true, since_timestamp := some now, breach := breach }
    else SubState.init
  { res.1 with states := insertA res.1.states (device_id, sensor_id) (res.2.set lvl sub') }

/-- `DeviceStateManager.update_sensor_state`: lowercases the threshold
type, raises `ValueError` (modelled as `.error`) for anything other than
"yellow"/"orange" before touching any state, and otherwise updates the
selected sub-state. -/
def update_sensor_state (m : MgrState) (now : Int) (device_id sensor_id : String)
    (threshold_type : String) (is_above : Bool) (breach : Option Breach) :
    Except String MgrState :=
  let t := pyLower threshold_type
  if t = "yellow" then
    .ok (update_level m now device_id sensor_id .yellow is_above breach)
  else if t = "orange" then
    .ok (update_level m now device_id sensor_id .orange is_above breach)
  else
    .error ("Invalid threshold type: " ++ t)

/-- `DeviceStateManager.check_sustained_breach`: if the sub-state is above
threshold with a non-null `since_timestamp` whose age reaches the required
duration, clear the sub-state and return `(true, stored breach)`;
otherwise return `(false, none)`.  The final component is the manager
state after the call. -/
def check_sustained_breach (m : MgrState) (now : Int) (device_id sensor_id : String)
    (lvl : Level) (required_duration : Int) : Bool × Option Breach × MgrState :=
  let res := get_sensor_state m now device_id sensor_id
  let sub := res.2.get lvl
  let fires := sub.above_threshold &&
    (match sub.since_timestamp with
     | some since => decide (now - since ≥ required_duration)
     | none => false)
  if fires then
    (true, sub.breach,
      { res.1 with
        states := insertA res.1.states (device_id, sensor_id) (res.2.set lvl SubState.init) })
  else
    (false, none, res.1)

/-- observation of one sub-state of the manager (absent entries read as the
all-null initial sub-state, exactly what `get_sensor_state` would hand back). -/
def subStateOf (m : MgrState) (device_id sensor_id : String) (lvl : Level) : SubState :=
  ((lookupA m.states (device_id, sensor_id)).getD SensorState.init).get lvl

/-- spec-side firing condition of `take_if_sustained`:
`above ∧ (now − since ≥ dwell)` read off the stored sub-state. -/
def sustained_fires (m : MgrState) (now : Int) (device_id sensor_id : String)
    (lvl : Level) (required_duration : Int) : Bool :=
  (subStateOf m device_id sensor_id lvl).above_threshold &&
    (match (subStateOf m device_id sensor_id lvl).since_timestamp with
     | some since => decide (now - since ≥ required_duration)
     | none => false)

/-! ### SensorState invariant (spec §3) -/

/-- Boolean form of the per-level SensorState invariant:
`above = false ⇒ since = null ∧ pending_breach = null` and
`above = true ⇒ since ≠ null ∧ pending_breach ≠ null`. -/
def subInvB (s : SubState) : Bool :=
  if s.above_threshold then s.since_timestamp.isSome && s.breach.isSome
  else s.since_timestamp.isNone && s.breach.isNone

def sensorInvB (ss : SensorState) : Bool := subInvB ss.yellow && subInvB ss.orange

/-- the invariant over every stored (device, sensor) entry of the manager. -/
def mgrInvB (m : MgrState) : Bool := m.states.all (fun p => sensorInvB p.2)

/-! ### Threshold classifier (`monitoring/threshold_checker.py`) -/

/-- external collaborators and configuration consumed by the classifier:
`thresholds` models `get_thresholds` (`none` = `DataNotSetError` raised),
`entity_names` models `get_entity_names` (total, falls back to "Unknown ..."
names), the dwell periods come from settings, `queue_size` is `QUEUE_SIZE`. -/
structure ClassifierCtx where
  thresholds : String → String → Option (ℚ × ℚ × ℚ)
  entity_names : String → String × String × String
  yellow_dwell : Int
  orange_dwell : Int
  queue_size : Nat

/-- `make_breach_object`: builds the breach notification dictionary. -/
def make_breach_object (ctx : ClassifierCtx) (device_id : String) (r : Reading)
    (timestamp : String) (threshold_type : String) (threshold_value : ℚ) : Breach :=
  { device_id := device_id
    sensor_id := r.sensor_id
    factory_name := (ctx.entity_names device_id).1
    zone_name := (ctx.entity_names device_id).2.1
    machine_name := (ctx.entity_names device_id).2.2
    sensor_name := r.sensor_type
    sensor_value := r.value
    timestamp := timestamp
    threshold_type := pyLower threshold_type
    threshold_value := threshold_value }

/-- the state the classifier can reach: the global device-state manager plus
the contents of the two bounded queues. -/
structure PipelineState where
  mgr : MgrState
  critical : List Breach
  warning : List Breach
deriving DecidableEq

/-- non-blocking `queue.put(breach, block=False)` on a `Queue(QUEUE_SIZE)`:
appends when there is room, otherwise raises `queue.Full`, which the caller
catches and logs — the breach is dropped. -/
def qput (queue_size : Nat) (q : List Breach) (b : Breach) : List Breach :=
  if q.length < queue_size then q ++ [b] else q

/-- severity ladder of `check_thresholds_against_data` for one reading whose
value has already been coerced to a number (lines 81-148 of
`threshold_checker.py`).  First-match `elif` ladder: red enqueues immediately
without touching state; orange/yellow observe the level then query the
sustained check; below all thresholds both levels are reset. -/
def classify_value (ctx : ClassifierCtx) (now : Int) (device_id timestamp : String)
    (ps : PipelineState) (r : Reading) (sensor_value : ℚ)
    (thresholds : ℚ × ℚ × ℚ) : PipelineState :=
  if sensor_value ≥ thresholds.2.2 then
    { ps with
        critical := qput ctx.queue_size ps.critical
          (make_breach_object ctx device_id r timestamp "red" thresholds.2.2) }
  else if sensor_value ≥ thresholds.2.1 then
    let breach := make_breach_object ctx device_id r timestamp "orange" thresholds.2.1
    let m1 := update_level ps.mgr now device_id r.sensor_id .orange true (some breach)
    let res := check_sustained_breach m1 now device_id r.sensor_id .orange ctx.orange_dwell
    if res.1 then
      match res.2.1 with
      | some fired =>
        { ps with mgr := res.2.2, warning := qput ctx.queue_size ps.warning fired }
      | none => { ps with mgr := res.2.2 }
    else { ps with mgr := res.2.2 }
  else if sensor_value ≥ thresholds.1 then
    let breach := make_breach_object ctx device_id r timestamp "yellow" thresholds.1
    let m1 := update_level ps.mgr now device_id r.sensor_id .yellow true (some breach)
    let res := check_sustained_breach m1 now device_id r.sensor_id .yellow ctx.yellow_dwell
    if res.1 then
      match res.2.1 with
      | some fired =>
        { ps with mgr := res.2.2, warning := qput ctx.queue_size ps.warning fired }
      | none => { ps with mgr := res.2.2 }
    else { ps with mgr := res.2.2 }
  else
    let m1 := update_level ps.mgr now device_id r.sensor_id .yellow false none
    let m2 := update_level m1 now device_id r.sensor_id .orange false none
    { ps with mgr := m2 }

/-- one iteration of the reading loop: `float(...)` failure propagates
(`none`); a `get_thresholds` failure is caught and the reading skipped. -/
def checkOneReading (ctx : ClassifierCtx) (now : Int) (device_id timestamp : String)
    (ps : PipelineState) (r : Reading) : Option PipelineState :=
  match toFloat r.value with
  | none => none
  | some sensor_value =>
    some (match ctx.thresholds device_id r.sensor_id with
      | none => ps
      | some t => classify_value ctx now device_id timestamp ps r sensor_value t)

/-- `check_thresholds_against_data` over the event's reading list; the Bool
records whether the loop was aborted by an uncaught exception (the state at
that moment is returned, since the mutations already happened in place). -/
def check_thresholds_against_data (ctx : ClassifierCtx) (now : Int)
    (device_id timestamp : String) : List Reading → PipelineState → PipelineState × Bool
  | [], ps => (ps, false)
  | r :: rest, ps =>
    match checkOneReading ctx now device_id timestamp ps r with
    | none => (ps, true)
    | some ps' => check_thresholds_against_data ctx now device_id timestamp rest ps'

/-- `run_threshold_check`: the surrounding try/except catches any exception
escaping the loop and only logs it, so the pipeline state is whatever the
loop had produced by then. -/
def run_threshold_check (ctx : ClassifierCtx) (now : Int) (device_id timestamp : String)
    (readings : List Reading) (ps : PipelineState) : PipelineState :=
  (check_thresholds_against_data ctx now device_id timestamp readings ps).1

/-! ### Rate limiter (`utils/rate_limiter.py`) -/

/-- key of the limiter history: (device_id, sensor_id, threshold_type). -/
abbrev RLKey := String × String × String

/-- `BREACH_TIMEOUT_IN_SECONDS` from `config/settings.py`, at its default
values (the values are env-overridable, the key set is fixed). -/
def BREACH_TIMEOUT_IN_SECONDS : List (String × Int) :=
  [("red", 300), ("orange", 1800), ("yellow", 3600)]

/-- `RateLimiter.should_send` as a pure transition on the history map:
returns the decision together with the updated history.  The timeout is
`timeouts.get(threshold_type, 3600)` on the lowercased type. -/
def should_send (timeouts : List (String × Int)) (history : List (RLKey × Int))
    (now : Int) (device_id sensor_id threshold_type : String) :
    Bool × List (RLKey × Int) :=
  let t := pyLower threshold_type
  let key : RLKey := (device_id, sensor_id, t)
  match lookupA history key with
  | none => (true, insertA history key now)
  | some last_sent =>
    if now - last_sent ≥ (lookupA timeouts t).getD 3600 then
      (true, insertA history key now)
    else (false, history)

/-! ### Email retry (`notification/email_sender.py`) -/

def MAX_EMAIL_RETRY_ATTEMPTS : Nat := 3

/-- an entry of the retry queue. -/
structure RetryRecord where
  recipients : List String
  subject : String
  content : String
  attempt : Nat
  next_try : Int
deriving DecidableEq

/-- `EmailSender.queue_for_retry`: while `attempt ≤ MAX_EMAIL_RETRY_ATTEMPTS`
the email is re-enqueued with the given attempt count and
`next_try = now + 30`; beyond the bound it is dropped with a
permanent-failure log entry (modelled as `none`). -/
def queue_for_retry (now : Int) (recipients : List String) (subject content : String)
    (attempt : Nat) : Option RetryRecord :=
  if attempt ≤ MAX_EMAIL_RETRY_ATTEMPTS then
    some { recipients := recipients, subject := subject, content := content,
           attempt := attempt, next_try := now + 30 }
  else none

/-- number of SMTP send attempts the retry worker makes for a queued record
when every send fails: it sends once, then `queue_for_retry (attempt + 1)`
either re-enqueues the record (and the worker will send again) or drops it
(the inlined condition and re-enqueued record coincide with
`queue_for_retry`, see `retry_sends_when_failing_eq`). -/
def retry_sends_when_failing (now : Int) (rec0 : RetryRecord) : Nat :=
  if h : rec0.attempt + 1 ≤ MAX_EMAIL_RETRY_ATTEMPTS then
    1 + retry_sends_when_failing now
      { recipients := rec0.recipients, subject := rec0.subject, content := rec0.content,
        attempt := rec0.attempt + 1, next_try := now + 30 }
  else 1
termination_by MAX_EMAIL_RETRY_ATTEMPTS + 1 - rec0.attempt
decreasing_by
  simp_wf
  omega

/-! ### Recipient lookup (`utils/db.py`) -/

/-- the live `get_emails` of `utils/db.py`: a single hardcoded address,
ignoring both arguments and never raising.  (The severity-filtering version
is commented out in the source.) -/
def get_emails (device_id threshold_type : String) : String :=
  "sudhamshusuri.2015@gmail.com"

/-! ### Notifier (`notification/email_sender.py`, `process_breaches`) -/

/-- the recipient envelope computed inside `send_email` (lines 56-62): in
test mode it is exactly the single test address (logger list suppressed);
otherwise the logger (audit-copy) addresses are appended. -/
def send_email_recipients (use_test_email : Bool) (test_email : String)
    (logger_emails recipients : List String) : List String :=
  if use_test_email then [test_email] else recipients ++ logger_emails

/-- `dict.setdefault`-style append of one value under a key. -/
def appendAssoc {α β : Type} [DecidableEq α] (l : List (α × List β)) (k : α) (b : β) :
    List (α × List β) :=
  match lookupA l k with
  | some bs => insertA l k (bs ++ [b])
  | none => insertA l k [b]

/-- the `device_breaches` grouping at the top of `process_breaches`. -/
def groupByDevice (breaches : List Breach) : List (String × List Breach) :=
  breaches.foldl (fun acc b => appendAssoc acc b.device_id b) []

/-- the per-device rate-limit filter: sequential `should_send` calls with the
history threaded through in call order. -/
def rate_filter (timeouts : List (String × Int)) (now : Int) :
    List (RLKey × Int) → List Breach → List Breach × List (RLKey × Int)
  | history, [] => ([], history)
  | history, b :: rest =>
    let res := should_send timeouts history now b.device_id b.sensor_id b.threshold_type
    let tail := rate_filter timeouts now res.2 rest
    (if res.1 then b :: tail.1 else tail.1, tail.2)

/-- file one breach under every trimmed non-empty resolved recipient
(the `emails_to_send` accumulation). -/
def addRecipients (acc : List (String × List Breach)) (b : Breach)
    (recipients : List String) : List (String × List Breach) :=
  recipients.foldl
    (fun acc2 email =>
      if pyStrip email ≠ "" then appendAssoc acc2 (pyStrip email) b else acc2)
    acc

/-- resolve recipients for the rate-limit survivors of one device; a
`get_emails` exception (`none`) is caught per breach and that breach
skipped. -/
def resolveDevice (get_emails_fn : String → String → Option (List String))
    (device_id : String) (filtered : List Breach)
    (acc : List (String × List Breach)) : List (String × List Breach) :=
  filtered.foldl
    (fun acc2 b =>
      match get_emails_fn device_id b.threshold_type with
      | some recipients => addRecipients acc2 b recipients
      | none => acc2)
    acc

/-- observable outcome of one `process_breaches` call: the resolved
`emails_to_send` map, the `send_email` calls made (envelope, subject,
content), and the rate-limiter history afterwards. -/
structure ProcessResult where
  emails_to_send : List (String × List Breach)
  sends : List (List String × String × String)
  history : List (RLKey × Int)
deriving DecidableEq

/-- `EmailSender.process_breaches`: group the batch by device, rate-limit
each breach, resolve recipients into the inverted `emails_to_send` map, then
call `send_email` once per recipient with the composed subject and body.
`get_emails_fn` abstracts the cached DB lookup and `subject_of`/`content_of`
the `email_formatter` renderers. -/
def process_breaches (get_emails_fn : String → String → Option (List String))
    (subject_of content_of : List Breach → String)
    (timeouts : List (String × Int)) (use_test_email : Bool) (test_email : String)
    (logger_emails : List String) (history : List (RLKey × Int)) (now : Int)
    (breaches : List Breach) : ProcessResult :=
  let step := (groupByDevice breaches).foldl
    (fun (acc : List (String × List Breach) × List (RLKey × Int)) dev =>
      let fr := rate_filter timeouts now acc.2 dev.2
      (resolveDevice get_emails_fn dev.1 fr.1 acc.1, fr.2))
    ([], history)
  { emails_to_send := step.1
    sends := step.1.map (fun e =>
      (send_email_recipients use_test_email test_email logger_emails [e.1],
        subject_of e.2, content_of e.2))
    history := step.2 }

/-! ### Lemmas and claim theorems -/

theorem lookupA_insertA {α β : Type} [DecidableEq α] (l : List (α × β)) (k k' : α) (v : β) :
    lookupA (insertA l k v) k' = if k' = k then some v else lookupA l k' := by
  induction l with
  | nil =>
    by_cases h : k' = k <;> simp [insertA, lookupA, h]
  | cons p rest ih =>
    obtain ⟨k0, v0⟩ := p
    by_cases hk : k = k0
    · subst hk
      by_cases h : k' = k <;> simp [insertA, lookupA, h]
    · by_cases h : k' = k0
      · subst h
        simp [insertA, lookupA, hk, Ne.symm hk]
      · simp [insertA, lookupA, hk, h, ih]

theorem all_insertA {α β : Type} [DecidableEq α] (l : List (α × β)) (k : α) (v : β)
    (p : α × β → Bool) (hl : l.all p = true) (hv : p (k, v) = true) :
    (insertA l k v).all p = true := by
  induction l with
  | nil => simp [insertA, hv]
  | cons q rest ih =>
    obtain ⟨k0, v0⟩ := q
    simp only [List.all_cons, Bool.and_eq_true] at hl
    by_cases hk : k = k0
    · subst hk
      simp [insertA, hv, hl.2]
    · simp only [insertA, if_neg hk, List.all_cons, Bool.and_eq_true]
      exact ⟨hl.1, ih hl.2⟩

theorem all_lookupA {α β : Type} [DecidableEq α] (l : List (α × β)) (k : α) (v : β)
    (p : α × β → Bool) (hl : l.all p = true) (hk : lookupA l k = some v) :
    p (k, v) = true := by
  induction l with
  | nil => simp [lookupA] at hk
  | cons q rest ih =>
    obtain ⟨k0, v0⟩ := q
    simp only [List.all_cons, Bool.and_eq_true] at hl
    by_cases h : k = k0
    · subst h
      simp [lookupA] at hk
      subst hk
      exact hl.1
    · simp only [lookupA, if_neg h] at hk
      exact ih hl.2 hk

theorem SensorState.get_set (ss : SensorState) (lvl l' : Level) (sub : SubState) :
    (ss.set lvl sub).get l' = if l' = lvl then sub else ss.get l' := by
  cases lvl <;> cases l' <;> simp [SensorState.set, SensorState.get]

theorem lookup_get_sensor_state (m : MgrState) (now : Int) (device_id sensor_id : String)
    (k' : String × String) :
    lookupA (get_sensor_state m now device_id sensor_id).1.states k' =
      if k' = (device_id, sensor_id) then some (get_sensor_state m now device_id sensor_id).2
      else lookupA m.states k' := by
  cases h : lookupA m.states (device_id, sensor_id) with
  | some v =>
    by_cases hk : k' = (device_id, sensor_id)
    · subst hk
      simp [get_sensor_state, h]
    · simp [get_sensor_state, h, hk]
  | none =>
    simp [get_sensor_state, h, lookupA_insertA]

theorem subStateOf_get_sensor_state (m : MgrState) (now : Int)
    (device_id sensor_id d' s' : String) (l' : Level) :
    subStateOf (get_sensor_state m now device_id sensor_id).1 d' s' l' =
      subStateOf m d' s' l' := by
  unfold subStateOf
  rw [lookup_get_sensor_state]
  by_cases hk : (d', s') = (device_id, sensor_id)
  · rw [if_pos hk, hk]
    simp [get_sensor_state]
  · rw [if_neg hk]

theorem get_sensor_state_snd (m : MgrState) (now : Int) (d s : String) :
    (get_sensor_state m now d s).2 =
      (lookupA m.states (d, s)).getD SensorState.init := rfl

theorem get_sensor_state_states (m : MgrState) (now : Int) (d s : String) :
    (get_sensor_state m now d s).1.states =
      match lookupA m.states (d, s) with
      | some _ => m.states
      | none => insertA m.states (d, s) SensorState.init := rfl

theorem check_sustained_breach_eq (m : MgrState) (now : Int) (device_id sensor_id : String)
    (lvl : Level) (required_duration : Int) :
    check_sustained_breach m now device_id sensor_id lvl required_duration =
      if sustained_fires m now device_id sensor_id lvl required_duration then
        (true, (subStateOf m device_id sensor_id lvl).breach,
          ⟨insertA (get_sensor_state m now device_id sensor_id).1.states
              (device_id, sensor_id)
              ((get_sensor_state m now device_id sensor_id).2.set lvl SubState.init),
            (get_sensor_state m now device_id sensor_id).1.last_access⟩)
      else (false, none, (get_sensor_state m now device_id sensor_id).1) := rfl

/-- C2: `check_sustained_breach` (the spec's `take_if_sustained`) fires exactly
when the stored sub-state is above threshold with `now − since ≥ dwell`; on
firing it returns the stored pending breach and clears exactly that sub-state
to the all-null state, and in every other case it returns null and leaves
every sub-state unchanged. -/
theorem take_if_sustained_spec (m : MgrState) (now : Int) (device_id sensor_id : String)
    (lvl : Level) (required_duration : Int) :
    (check_sustained_breach m now device_id sensor_id lvl required_duration).1 =
        sustained_fires m now device_id sensor_id lvl required_duration ∧
    (check_sustained_breach m now device_id sensor_id lvl required_duration).2.1 =
        (if sustained_fires m now device_id sensor_id lvl required_duration = true
         then (subStateOf m device_id sensor_id lvl).breach else none) ∧
    ∀ (d' s' : String) (l' : Level),
      subStateOf (check_sustained_breach m now device_id sensor_id lvl required_duration).2.2
          d' s' l' =
        (if sustained_fires m now device_id sensor_id lvl required_duration = true
            ∧ (d', s', l') = (device_id, sensor_id, lvl)
         then SubState.init else subStateOf m d' s' l') := by
  rw [check_sustained_breach_eq]
  by_cases hf : sustained_fires m now device_id sensor_id lvl required_duration = true
  · rw [if_pos hf]
    refine ⟨hf.symm, by rw [if_pos hf], ?_⟩
    intro d' s' l'
    have hd : d' = d' := rfl
    show ((lookupA (insertA (get_sensor_state m now device_id sensor_id).1.states
        (device_id, sensor_id)
        ((get_sensor_state m now device_id sensor_id).2.set lvl SubState.init))
        (d', s')).getD SensorState.init).get l' = _
    rw [lookupA_insertA]
    by_cases hk : (d', s') = (device_id, sensor_id)
    · have hkd : d' = device_id := congrArg Prod.fst hk
      have hks : s' = sensor_id := congrArg Prod.snd hk
      subst hkd; subst hks
      rw [if_pos rfl, Option.getD_some, SensorState.get_set]
      by_cases hl : l' = lvl
      · subst hl
        rw [if_pos rfl, if_pos ⟨hf, rfl⟩]
      · rw [if_neg hl, if_neg (by
          rintro ⟨-, ht⟩
          exact hl (congrArg (fun p => p.2.2) ht))]
        rw [get_sensor_state_snd]
        rfl
    · rw [if_neg hk, if_neg (by
        rintro ⟨-, ht⟩
        exact hk (congrArg (fun p => (p.1, p.2.1)) ht))]
      rw [lookup_get_sensor_state, if_neg hk]
      rfl
  · rw [if_neg hf]
    refine ⟨?_, by rw [if_neg hf], ?_⟩
    · simp only [Bool.not_eq_true] at hf
      exact hf.symm
    · intro d' s' l'
      rw [if_neg (by rintro ⟨h, -⟩; exact hf h)]
      exact subStateOf_get_sensor_state m now device_id sensor_id d' s' l'

theorem subInvB_init : subInvB SubState.init = true := rfl

theorem sensorInvB_init : sensorInvB SensorState.init = true := rfl

theorem subInvB_get (ss : SensorState) (lvl : Level) (h : sensorInvB ss = true) :
    subInvB (ss.get lvl) = true := by
  simp only [sensorInvB, Bool.and_eq_true] at h
  cases lvl
  · exact h.1
  · exact h.2

theorem sensorInvB_set (ss : SensorState) (lvl : Level) (sub : SubState)
    (hss : sensorInvB ss = true) (hsub : subInvB sub = true) :
    sensorInvB (ss.set lvl sub) = true := by
  simp only [sensorInvB, Bool.and_eq_true] at hss
  cases lvl <;> simp [sensorInvB, SensorState.set, hsub, hss.1, hss.2]

theorem sensorInvB_lookup (m : MgrState) (k : String × String) (hm : mgrInvB m = true) :
    sensorInvB ((lookupA m.states k).getD SensorState.init) = true := by
  cases h : lookupA m.states k with
  | none => simp [sensorInvB_init]
  | some ss => simpa using all_lookupA m.states k ss _ hm h

theorem mgrInvB_get_sensor_state (m : MgrState) (now : Int) (device_id sensor_id : String)
    (hm : mgrInvB m = true) :
    mgrInvB (get_sensor_state m now device_id sensor_id).1 = true := by
  unfold mgrInvB
  rw [get_sensor_state_states]
  cases h : lookupA m.states (device_id, sensor_id) with
  | some v => exact hm
  | none => exact all_insertA _ _ _ _ hm sensorInvB_init

theorem update_level_states (m : MgrState) (now : Int) (device_id sensor_id : String)
    (lvl : Level) (is_above : Bool) (breach : Option Breach) :
    (update_level m now device_id sensor_id lvl is_above breach).states =
      insertA (get_sensor_state m now device_id sensor_id).1.states (device_id, sensor_id)
        ((get_sensor_state m now device_id sensor_id).2.set lvl
          (if is_above then
            (if ((get_sensor_state m now device_id sensor_id).2.get lvl).above_threshold then
              (get_sensor_state m now device_id sensor_id).2.get lvl
             else { above_threshold := true, since_timestamp := some now, breach := breach })
           else SubState.init)) := rfl

theorem mgrInvB_update_level (m : MgrState) (now : Int) (device_id sensor_id : String)
    (lvl : Level) (is_above : Bool) (breach : Option Breach)
    (hm : mgrInvB m = true) (hb : is_above = true → breach.isSome = true) :
    mgrInvB (update_level m now device_id sensor_id lvl is_above breach) = true := by
  unfold mgrInvB
  rw [update_level_states]
  have hg : mgrInvB (get_sensor_state m now device_id sensor_id).1 = true :=
    mgrInvB_get_sensor_state m now device_id sensor_id hm
  unfold mgrInvB at hg
  apply all_insertA _ _ _ _ hg
  show sensorInvB _ = true
  apply sensorInvB_set _ _ _
    (get_sensor_state_snd m now device_id sensor_id ▸
      sensorInvB_lookup m (device_id, sensor_id) hm)
  by_cases ha : is_above = true
  · rw [ha, if_pos rfl]
    by_cases h2 :
        ((get_sensor_state m now device_id sensor_id).2.get lvl).above_threshold = true
    · rw [if_pos h2]
      exact subInvB_get _ lvl
        (get_sensor_state_snd m now device_id sensor_id ▸
          sensorInvB_lookup m (device_id, sensor_id) hm)
    · rw [if_neg h2]
      simp [subInvB, hb ha]
  · simp only [Bool.not_eq_true] at ha
    rw [ha]
    simp [subInvB_init]

theorem mgrInvB_check_sustained (m : MgrState) (now : Int) (device_id sensor_id : String)
    (lvl : Level) (required_duration : Int) (hm : mgrInvB m = true) :
    mgrInvB (check_sustained_breach m now device_id sensor_id lvl required_duration).2.2
      = true := by
  rw [check_sustained_breach_eq]
  by_cases hf : sustained_fires m now device_id sensor_id lvl required_duration = true
  · rw [if_pos hf]
    have hg : mgrInvB (get_sensor_state m now device_id sensor_id).1 = true :=
      mgrInvB_get_sensor_state m now device_id sensor_id hm
    unfold mgrInvB at hg ⊢
    exact all_insertA _ _ _ _ hg
      (sensorInvB_set _ _ _
        (get_sensor_state_snd m now device_id sensor_id ▸
          sensorInvB_lookup m (device_id, sensor_id) hm)
        sensorInvB_init)
  · rw [if_neg hf]
    exact mgrInvB_get_sensor_state m now device_id sensor_id hm

/-- C3 (amended): `get_sensor_state` and `check_sustained_breach` always
preserve the SensorState invariant, and `update_sensor_state` preserves it
provided a breach object accompanies every above-threshold update (which is
how the classifier calls it; the bare operation with `breach = None` and
`is_above = true` violates the invariant, see the counterexample). -/
theorem device_state_ops_preserve_invariant
    (m : MgrState) (now : Int) (device_id sensor_id threshold_type : String)
    (is_above : Bool) (breach : Option Breach) (lvl : Level) (required_duration : Int)
    (hm : mgrInvB m = true) (hb : is_above = true → breach.isSome = true) :
    mgrInvB (get_sensor_state m now device_id sensor_id).1 = true ∧
    (∀ m', update_sensor_state m now device_id sensor_id threshold_type is_above breach
        = .ok m' → mgrInvB m' = true) ∧
    mgrInvB (check_sustained_breach m now device_id sensor_id lvl required_duration).2.2
      = true := by
  refine ⟨mgrInvB_get_sensor_state m now device_id sensor_id hm, ?_,
    mgrInvB_check_sustained m now device_id sensor_id lvl required_duration hm⟩
  intro m' hok
  unfold update_sensor_state at hok
  by_cases hy : pyLower threshold_type = "yellow"
  · rw [if_pos hy] at hok
    cases hok
    exact mgrInvB_update_level m now device_id sensor_id .yellow is_above breach hm hb
  · rw [if_neg hy] at hok
    by_cases ho : pyLower threshold_type = "orange"
    · rw [if_pos ho] at hok
      cases hok
      exact mgrInvB_update_level m now device_id sensor_id .orange is_above breach hm hb
    · rw [if_neg ho] at hok
      cases hok

/-- C3 counterexample: the public operation `update_sensor_state`, called with
`is_above_threshold = true` and the default `breach = None`, maps the empty
(invariant-satisfying) manager to a state with `above = true` but
`pending_breach = null`, violating the invariant. -/
theorem update_sensor_state_breaks_invariant_on_none_breach :
    update_sensor_state MgrState.init 0 "d" "s" "yellow" true none =
      .ok { states := [(("d", "s"),
              { yellow := { above_threshold := true, since_timestamp := some 0, breach := none },
                orange := SubState.init })],
            last_access := [("d", 0)] } ∧
    mgrInvB { states := [(("d", "s"),
                { yellow := { above_threshold := true, since_timestamp := some 0, breach := none },
                  orange := SubState.init })],
              last_access := [("d", 0)] } = false ∧
    mgrInvB MgrState.init = true :=
  ⟨rfl, rfl, rfl⟩

/-- C3 witness: the amended preservation theorem applied at a concrete state,
update carrying a breach object. -/
theorem device_state_ops_preserve_invariant_witness :
    mgrInvB (get_sensor_state MgrState.init 0 "d" "s").1 = true ∧
    (∀ m', update_sensor_state MgrState.init 0 "d" "s" "yellow" true
        (some { device_id := "d", sensor_id := "s", factory_name := "F", zone_name := "Z",
                machine_name := "M", sensor_name := "temp", sensor_value := RawValue.num 15,
                timestamp := "t0", threshold_type := "yellow", threshold_value := 10 })
        = .ok m' → mgrInvB m' = true) ∧
    mgrInvB (check_sustained_breach MgrState.init 0 "d" "s" Level.yellow 10).2.2 = true :=
  device_state_ops_preserve_invariant MgrState.init 0 "d" "s" "yellow" true
    (some { device_id := "d", sensor_id := "s", factory_name := "F", zone_name := "Z",
            machine_name := "M", sensor_name := "temp", sensor_value := RawValue.num 15,
            timestamp := "t0", threshold_type := "yellow", threshold_value := 10 })
    Level.yellow 10 rfl (fun _ => rfl)

/-- the classifier calls `update_sensor_state` with the literal string
"orange" (resp. "yellow"); these always take the `.ok` branch. -/
theorem update_sensor_state_orange (m : MgrState) (now : Int) (d s : String)
    (is_above : Bool) (breach : Option Breach) :
    update_sensor_state m now d s "orange" is_above breach =
      .ok (update_level m now d s .orange is_above breach) := rfl

theorem update_sensor_state_yellow (m : MgrState) (now : Int) (d s : String)
    (is_above : Bool) (breach : Option Breach) :
    update_sensor_state m now d s "yellow" is_above breach =
      .ok (update_level m now d s .yellow is_above breach) := rfl

/-- C1 (amended): for a reading at or above the red threshold the classifier
builds one Red breach with `threshold_value` = red and puts it on the
critical queue when the queue has room (the non-blocking put drops it when
the queue is full); the device-state manager and the warning queue are left
completely unchanged either way. -/
theorem red_breach_enqueued_state_untouched
    (ctx : ClassifierCtx) (now : Int) (device_id timestamp : String)
    (ps : PipelineState) (r : Reading) (v ty tor tred : ℚ)
    (hv : toFloat r.value = some v)
    (ht : ctx.thresholds device_id r.sensor_id = some (ty, tor, tred))
    (hred : v ≥ tred) :
    checkOneReading ctx now device_id timestamp ps r =
      some { mgr := ps.mgr,
             critical := qput ctx.queue_size ps.critical
               (make_breach_object ctx device_id r timestamp "red" tred),
             warning := ps.warning } := by
  simp only [checkOneReading, hv, ht]
  unfold classify_value
  simp only [if_pos hred]

/-- C1 witness: value 35 against thresholds (10, 20, 30) on an empty queue. -/
theorem red_breach_enqueued_state_untouched_witness :
    checkOneReading (⟨fun _ _ => some (10, 20, 30), fun _ => ("F", "Z", "M"), 10, 5, 100⟩)
      0 "d" "t0" ⟨MgrState.init, [], []⟩ ⟨"s", "temp", RawValue.num 35⟩ =
      some { mgr := MgrState.init,
             critical := qput 100 []
               (make_breach_object
                 (⟨fun _ _ => some (10, 20, 30), fun _ => ("F", "Z", "M"), 10, 5, 100⟩)
                 "d" ⟨"s", "temp", RawValue.num 35⟩ "t0" "red" 30),
             warning := [] } :=
  red_breach_enqueued_state_untouched
    (⟨fun _ _ => some (10, 20, 30), fun _ => ("F", "Z", "M"), 10, 5, 100⟩)
    0 "d" "t0" ⟨MgrState.init, [], []⟩ ⟨"s", "temp", RawValue.num 35⟩
    35 10 20 30 rfl rfl (by norm_num)

/-- C1 counterexample: with the critical queue already at its capacity of
100, a reading at or above red enqueues nothing — the breach is dropped by
the non-blocking put — so "exactly one Red breach appears on the critical
queue" fails on a full queue (the state is still untouched). -/
theorem red_breach_dropped_when_critical_queue_full :
    checkOneReading (⟨fun _ _ => some (10, 20, 30), fun _ => ("F", "Z", "M"), 10, 5, 100⟩)
      0 "d" "t0"
      ⟨MgrState.init,
        List.replicate 100 (⟨"x", "x", "F", "Z", "M", "t", RawValue.num 0, "t", "red", 0⟩ : Breach),
        []⟩
      ⟨"s", "temp", RawValue.num 35⟩ =
      some ⟨MgrState.init,
        List.replicate 100 (⟨"x", "x", "F", "Z", "M", "t", RawValue.num 0, "t", "red", 0⟩ : Breach),
        []⟩ ∧
    (List.replicate 100 (⟨"x", "x", "F", "Z", "M", "t", RawValue.num 0, "t", "red", 0⟩ : Breach)).length
      = 100 :=
  ⟨rfl, rfl⟩

/-- C4 (amended): a reading whose value fails float conversion aborts the
event's loop at that reading: the readings before it are classified
normally, while the failing reading and every later reading in the same
event are dropped (the exception is only caught per event, in
`run_threshold_check`). -/
theorem conversion_failure_skips_reading_and_rest
    (ctx : ClassifierCtx) (now : Int) (device_id timestamp : String)
    (pre post : List Reading) (r : Reading) (ps : PipelineState)
    (hpre : ∀ x ∈ pre, (toFloat x.value).isSome = true)
    (hjunk : toFloat r.value = none) :
    check_thresholds_against_data ctx now device_id timestamp (pre ++ r :: post) ps =
      ((check_thresholds_against_data ctx now device_id timestamp pre ps).1, true) := by
  induction pre generalizing ps with
  | nil =>
    simp only [List.nil_append, check_thresholds_against_data, checkOneReading, hjunk]
  | cons x rest ih =>
    have hx : (toFloat x.value).isSome = true := hpre x (List.mem_cons_self _ _)
    obtain ⟨v, hv⟩ := Option.isSome_iff_exists.mp hx
    simp only [List.cons_append, check_thresholds_against_data, checkOneReading, hv]
    exact ih _ (fun y hy => hpre y (List.mem_cons_of_mem _ hy))

/-- C4 witness: [good, junk, good] — the first reading is processed, the
junk reading aborts, the third is dropped. -/
theorem conversion_failure_skips_reading_and_rest_witness :
    check_thresholds_against_data
      (⟨fun _ _ => some (10, 20, 30), fun _ => ("F", "Z", "M"), 10, 5, 100⟩) 0 "d" "t0"
      ([⟨"s1", "temp", RawValue.num 35⟩] ++
        (⟨"s2", "temp", RawValue.junk "oops"⟩ : Reading) :: [⟨"s3", "temp", RawValue.num 35⟩])
      ⟨MgrState.init, [], []⟩ =
      ((check_thresholds_against_data
          (⟨fun _ _ => some (10, 20, 30), fun _ => ("F", "Z", "M"), 10, 5, 100⟩) 0 "d" "t0"
          [⟨"s1", "temp", RawValue.num 35⟩] ⟨MgrState.init, [], []⟩).1, true) :=
  conversion_failure_skips_reading_and_rest
    (⟨fun _ _ => some (10, 20, 30), fun _ => ("F", "Z", "M"), 10, 5, 100⟩) 0 "d" "t0"
    [⟨"s1", "temp", RawValue.num 35⟩] [⟨"s3", "temp", RawValue.num 35⟩]
    (⟨"s2", "temp", RawValue.junk "oops"⟩ : Reading) ⟨MgrState.init, [], []⟩
    (by intro x hx; simp at hx; subst hx; rfl) rfl

/-- C4 counterexample: the event [junk, red-breaching reading] ends with an
unchanged pipeline state — the remaining reading after the conversion
failure is NOT classified — although classified on its own that reading
enqueues a red breach. -/
theorem conversion_failure_drops_rest_of_event :
    run_threshold_check (⟨fun _ _ => some (10, 20, 30), fun _ => ("F", "Z", "M"), 10, 5, 100⟩)
      0 "d" "t0"
      [⟨"s1", "temp", RawValue.junk "oops"⟩, ⟨"s2", "temp", RawValue.num 35⟩]
      ⟨MgrState.init, [], []⟩ = ⟨MgrState.init, [], []⟩ ∧
    (run_threshold_check (⟨fun _ _ => some (10, 20, 30), fun _ => ("F", "Z", "M"), 10, 5, 100⟩)
      0 "d" "t0" [⟨"s2", "temp", RawValue.num 35⟩] ⟨MgrState.init, [], []⟩).critical ≠ [] :=
  ⟨rfl, by decide⟩

/-- C9: for any threshold type whose lowercase form is neither "yellow" nor
"orange", `update_sensor_state` raises `ValueError` before touching any state:
no state is produced, so the states and last-access maps of the caller are
unchanged on this branch. -/
theorem update_sensor_state_invalid_type_is_error
    (m : MgrState) (now : Int) (device_id sensor_id threshold_type : String)
    (is_above : Bool) (breach : Option Breach)
    (h1 : pyLower threshold_type ≠ "yellow") (h2 : pyLower threshold_type ≠ "orange") :
    update_sensor_state m now device_id sensor_id threshold_type is_above breach =
      .error ("Invalid threshold type: " ++ pyLower threshold_type) := by
  unfold update_sensor_state
  rw [if_neg h1, if_neg h2]

/-- C9 witness: "red" is not a valid threshold type for `update_sensor_state`. -/
theorem update_sensor_state_invalid_type_is_error_witness :
    update_sensor_state MgrState.init 0 "d" "s" "Red" true none =
      .error ("Invalid threshold type: " ++ pyLower "Red") :=
  update_sensor_state_invalid_type_is_error MgrState.init 0 "d" "s" "Red" true none
    (by decide) (by decide)

theorem should_send_char (timeouts : List (String × Int)) (history : List (RLKey × Int))
    (now : Int) (device_id sensor_id threshold_type : String) :
    ((should_send timeouts history now device_id sensor_id threshold_type).1 = true ↔
      (lookupA history (device_id, sensor_id, pyLower threshold_type) = none ∨
        ∃ last_sent,
          lookupA history (device_id, sensor_id, pyLower threshold_type) = some last_sent ∧
          now - last_sent ≥ (lookupA timeouts (pyLower threshold_type)).getD 3600)) ∧
    ((should_send timeouts history now device_id sensor_id threshold_type).1 = true →
      (should_send timeouts history now device_id sensor_id threshold_type).2 =
        insertA history (device_id, sensor_id, pyLower threshold_type) now) ∧
    ((should_send timeouts history now device_id sensor_id threshold_type).1 = false →
      (should_send timeouts history now device_id sensor_id threshold_type).2 = history) := by
  unfold should_send
  cases h : lookupA history (device_id, sensor_id, pyLower threshold_type) with
  | none => simp [h]
  | some last_sent =>
    simp only [h]
    by_cases hto : now - last_sent ≥ (lookupA timeouts (pyLower threshold_type)).getD 3600
    · rw [if_pos hto]
      refine ⟨?_, ?_, ?_⟩
      · simp [hto]
      · intro _
        rfl
      · intro hfalse
        simp at hfalse
    · rw [if_neg hto]
      refine ⟨?_, ?_, ?_⟩
      · simp [hto]
      · intro htrue
        simp at htrue
      · intro _
        rfl

/-- C5: `should_send` allows and records `now` exactly when there is no
history entry for the key or the elapsed time since `last_sent` reached the
severity's timeout; a deny returns the history unchanged (the stored
`last_sent` is not touched). -/
theorem should_send_allow_records_deny_leaves (timeouts : List (String × Int))
    (history : List (RLKey × Int)) (now : Int) (device_id sensor_id threshold_type : String) :
    ((should_send timeouts history now device_id sensor_id threshold_type).1 = true ↔
      (lookupA history (device_id, sensor_id, pyLower threshold_type) = none ∨
        ∃ last_sent,
          lookupA history (device_id, sensor_id, pyLower threshold_type) = some last_sent ∧
          now - last_sent ≥ (lookupA timeouts (pyLower threshold_type)).getD 3600)) ∧
    ((should_send timeouts history now device_id sensor_id threshold_type).1 = true →
      (should_send timeouts history now device_id sensor_id threshold_type).2 =
        insertA history (device_id, sensor_id, pyLower threshold_type) now) ∧
    ((should_send timeouts history now device_id sensor_id threshold_type).1 = false →
      (should_send timeouts history now device_id sensor_id threshold_type).2 = history) :=
  should_send_char timeouts history now device_id sensor_id threshold_type

/-- C5 witness: a deny 100 s into a 300 s red window leaves the history
untouched, and the decision is false. -/
theorem should_send_allow_records_deny_leaves_witness :
    (should_send BREACH_TIMEOUT_IN_SECONDS [(("d", "s", "red"), 0)] 100 "d" "s" "red").2 =
      [(("d", "s", "red"), 0)] ∧
    (should_send BREACH_TIMEOUT_IN_SECONDS [(("d", "s", "red"), 0)] 100 "d" "s" "red").1 =
      false :=
  ⟨(should_send_allow_records_deny_leaves BREACH_TIMEOUT_IN_SECONDS
      [(("d", "s", "red"), 0)] 100 "d" "s" "red").2.2 (by decide), by decide⟩

/-- C10: for a threshold type whose lowercase form is none of red, orange,
yellow, `should_send` does not fail: it behaves exactly like the known
severities with the default timeout 3600, keyed by the lowercased type. -/
theorem should_send_unknown_severity_default_timeout
    (history : List (RLKey × Int)) (now : Int) (device_id sensor_id threshold_type : String)
    (h1 : pyLower threshold_type ≠ "red") (h2 : pyLower threshold_type ≠ "orange")
    (h3 : pyLower threshold_type ≠ "yellow") :
    ((should_send BREACH_TIMEOUT_IN_SECONDS history now device_id sensor_id threshold_type).1
        = true ↔
      (lookupA history (device_id, sensor_id, pyLower threshold_type) = none ∨
        ∃ last_sent,
          lookupA history (device_id, sensor_id, pyLower threshold_type) = some last_sent ∧
          now - last_sent ≥ 3600)) ∧
    ((should_send BREACH_TIMEOUT_IN_SECONDS history now device_id sensor_id threshold_type).1
        = true →
      (should_send BREACH_TIMEOUT_IN_SECONDS history now device_id sensor_id threshold_type).2
        = insertA history (device_id, sensor_id, pyLower threshold_type) now) ∧
    ((should_send BREACH_TIMEOUT_IN_SECONDS history now device_id sensor_id threshold_type).1
        = false →
      (should_send BREACH_TIMEOUT_IN_SECONDS history now device_id sensor_id threshold_type).2
        = history) := by
  have hnone : lookupA BREACH_TIMEOUT_IN_SECONDS (pyLower threshold_type) = none := by
    simp [BREACH_TIMEOUT_IN_SECONDS, lookupA, h1, h2, h3]
  have hc := should_send_char BREACH_TIMEOUT_IN_SECONDS history now device_id sensor_id
    threshold_type
  rw [hnone] at hc
  exact hc

/-- C10 witness: severity "Purple" is rate limited with the 3600 s default
under the lowercased key. -/
theorem should_send_unknown_severity_default_timeout_witness :
    ((should_send BREACH_TIMEOUT_IN_SECONDS [] 0 "d" "s" "Purple").1 = true ↔
      (lookupA ([] : List (RLKey × Int)) ("d", "s", pyLower "Purple") = none ∨
        ∃ last_sent,
          lookupA ([] : List (RLKey × Int)) ("d", "s", pyLower "Purple") = some last_sent ∧
          (0 : Int) - last_sent ≥ 3600)) ∧
    ((should_send BREACH_TIMEOUT_IN_SECONDS [] 0 "d" "s" "Purple").1 = true →
      (should_send BREACH_TIMEOUT_IN_SECONDS [] 0 "d" "s" "Purple").2 =
        insertA [] ("d", "s", pyLower "Purple") 0) ∧
    ((should_send BREACH_TIMEOUT_IN_SECONDS [] 0 "d" "s" "Purple").1 = false →
      (should_send BREACH_TIMEOUT_IN_SECONDS [] 0 "d" "s" "Purple").2 = []) :=
  should_send_unknown_severity_default_timeout [] 0 "d" "s" "Purple"
    (by decide) (by decide) (by decide)

theorem retry_sends_when_failing_eq (now : Int) (rec0 : RetryRecord) :
    retry_sends_when_failing now rec0 =
      match queue_for_retry now rec0.recipients rec0.subject rec0.content
          (rec0.attempt + 1) with
      | some rec1 => 1 + retry_sends_when_failing now rec1
      | none => 1 := by
  by_cases h : rec0.attempt + 1 ≤ MAX_EMAIL_RETRY_ATTEMPTS
  · rw [retry_sends_when_failing, dif_pos h]
    unfold queue_for_retry
    rw [if_pos h]
  · rw [retry_sends_when_failing, dif_neg h]
    unfold queue_for_retry
    rw [if_neg h]

/-- C6 (amended): a failed send with incremented attempt still within
`MAX_EMAIL_RETRY_ATTEMPTS` is re-enqueued with that attempt count and
`next_try = now + 30`; past the bound the message is dropped; and a message
handed to the retry path with `attempt = 1` is sent exactly
`MAX_EMAIL_RETRY_ATTEMPTS` more times in the all-failing worst case, for a
total of `MAX_EMAIL_RETRY_ATTEMPTS + 1` attempts including the initial send. -/
theorem retry_bound_and_requeue_spec (now : Int) (recipients : List String)
    (subject content : String) :
    (∀ attempt r, queue_for_retry now recipients subject content attempt = some r →
      r.attempt = attempt ∧ r.next_try = now + 30 ∧ attempt ≤ MAX_EMAIL_RETRY_ATTEMPTS) ∧
    (∀ attempt, MAX_EMAIL_RETRY_ATTEMPTS < attempt →
      queue_for_retry now recipients subject content attempt = none) ∧
    (∀ r, queue_for_retry now recipients subject content 1 = some r →
      1 + retry_sends_when_failing now r = MAX_EMAIL_RETRY_ATTEMPTS + 1) := by
  refine ⟨?_, ?_, ?_⟩
  · intro attempt r hq
    unfold queue_for_retry at hq
    split at hq
    · rename_i hle
      cases hq
      exact ⟨rfl, rfl, hle⟩
    · cases hq
  · intro attempt hgt
    unfold queue_for_retry
    rw [if_neg (by omega)]
  · intro r hq
    unfold queue_for_retry at hq
    rw [if_pos (by norm_num [MAX_EMAIL_RETRY_ATTEMPTS])] at hq
    cases hq
    show 1 + retry_sends_when_failing now
      { recipients := recipients, subject := subject, content := content,
        attempt := 1, next_try := now + 30 } = MAX_EMAIL_RETRY_ATTEMPTS + 1
    rw [retry_sends_when_failing, dif_pos (by norm_num [MAX_EMAIL_RETRY_ATTEMPTS])]
    rw [retry_sends_when_failing, dif_pos (by norm_num [MAX_EMAIL_RETRY_ATTEMPTS])]
    rw [retry_sends_when_failing, dif_neg (by norm_num [MAX_EMAIL_RETRY_ATTEMPTS])]
    decide

/-- C6 witness: the amended bound applied at a concrete message. -/
theorem retry_bound_and_requeue_spec_witness :
    queue_for_retry 0 ["a@x.example"] "subj" "body" 4 = none ∧
    1 + retry_sends_when_failing 0
      { recipients := ["a@x.example"], subject := "subj", content := "body",
        attempt := 1, next_try := 30 } = MAX_EMAIL_RETRY_ATTEMPTS + 1 :=
  ⟨(retry_bound_and_requeue_spec 0 ["a@x.example"] "subj" "body").2.1 4 (by decide),
   (retry_bound_and_requeue_spec 0 ["a@x.example"] "subj" "body").2.2
     { recipients := ["a@x.example"], subject := "subj", content := "body",
       attempt := 1, next_try := 30 } rfl⟩

/-- C6 counterexample: a message handed to the retry path whose sends all
fail is attempted 4 times in total (the initial send in `process_breaches`
plus retry sends at attempts 1, 2 and 3), which exceeds
`MAX_EMAIL_RETRY_ATTEMPTS = 3`. -/
theorem retry_total_attempts_is_four :
    1 + retry_sends_when_failing 0
      { recipients := ["a@x.example"], subject := "subj", content := "body",
        attempt := 1, next_try := 30 } = 4 ∧
    ¬ (1 + retry_sends_when_failing 0
      { recipients := ["a@x.example"], subject := "subj", content := "body",
        attempt := 1, next_try := 30 } ≤ MAX_EMAIL_RETRY_ATTEMPTS) := by
  have h : retry_sends_when_failing 0
      { recipients := ["a@x.example"], subject := "subj", content := "body",
        attempt := 1, next_try := 30 } = 3 := by
    rw [retry_sends_when_failing, dif_pos (by norm_num [MAX_EMAIL_RETRY_ATTEMPTS])]
    rw [retry_sends_when_failing, dif_pos (by norm_num [MAX_EMAIL_RETRY_ATTEMPTS])]
    rw [retry_sends_when_failing, dif_neg (by norm_num [MAX_EMAIL_RETRY_ATTEMPTS])]
  rw [h]
  exact ⟨rfl, by norm_num [MAX_EMAIL_RETRY_ATTEMPTS]⟩

/-- C7: the live `get_emails` returns the same hardcoded address for every
device and severity: it does not filter recipients by tier and cannot fail
with `RecipientsMissing` for a device with no configured recipients. -/
theorem get_emails_ignores_severity_and_never_fails :
    (∀ device_id t t', get_emails device_id t = get_emails device_id t') ∧
    get_emails "device-with-no-recipients" "yellow" = "sudhamshusuri.2015@gmail.com" :=
  ⟨fun _ _ _ => rfl, rfl⟩

/-- C8 (amended): with the test-mode boolean set, every outgoing email's
envelope is exactly the single test address and the logger recipients are
suppressed; but the substitution happens inside `send_email`, after
recipient resolution: `process_breaches` resolves exactly the same real
recipients with test mode on as off, so real addresses are still looked up
in test mode. -/
theorem test_mode_envelope_after_resolution
    (get_emails_fn : String → String → Option (List String))
    (subject_of content_of : List Breach → String) (timeouts : List (String × Int))
    (test_email : String) (logger_emails : List String)
    (history : List (RLKey × Int)) (now : Int) (breaches : List Breach) :
    (process_breaches get_emails_fn subject_of content_of timeouts true test_email
        logger_emails history now breaches).emails_to_send =
      (process_breaches get_emails_fn subject_of content_of timeouts false test_email
        logger_emails history now breaches).emails_to_send ∧
    ((process_breaches get_emails_fn subject_of content_of timeouts true test_email
        logger_emails history now breaches).sends.all
      (fun s => s.1 = [test_email])) = true := by
  constructor
  · rfl
  · rw [List.all_eq_true]
    intro s hs
    simp only [process_breaches, List.mem_map] at hs
    obtain ⟨e, -, rfl⟩ := hs
    simp [send_email_recipients]

/-- C8 counterexample: with test mode on, a one-breach batch still resolves
the two real configured recipients into `emails_to_send` (recipient
resolution is not short-circuited), even though both envelopes are the test
address. -/
theorem test_mode_still_resolves_real_recipients :
    (process_breaches (fun _ _ => some ["alice@real.example", "bob@real.example"])
        (fun _ => "subj") (fun _ => "body") BREACH_TIMEOUT_IN_SECONDS true
        "test@example.com" ["audit@example.com"] [] 0
        [⟨"d1", "s1", "F", "Z", "M", "t", RawValue.num 35, "t0", "red", 30⟩]).emails_to_send.map
        Prod.fst = ["alice@real.example", "bob@real.example"] ∧
    (process_breaches (fun _ _ => some ["alice@real.example", "bob@real.example"])
        (fun _ => "subj") (fun _ => "body") BREACH_TIMEOUT_IN_SECONDS true
        "test@example.com" ["audit@example.com"] [] 0
        [⟨"d1", "s1", "F", "Z", "M", "t", RawValue.num 35, "t0", "red", 30⟩]).sends.map
        (fun s => s.1) = [["test@example.com"], ["test@example.com"]] :=
  ⟨rfl, rfl⟩

end ThresholdAlert
